import Mathlib

/-!
Verification of the object-writer emission backend (objwriter.cpp).

The development shallowly embeds the emission entry points of
`src/lib/ObjWriter/objwriter.cpp`.  Streamer calls (the external
MCStreamer / MCObjectStreamer services) are recorded as a trace of
`Event`s; the mutable `ObjectWriter` session state (open-frame flag,
function-id counter, pending variable-info list, custom-section
registry) is threaded explicitly; C `assert` failures (fatal
programming-contract violations) are modelled as `Except.error`.
Machine integers are modelled as `Nat`/`Int` with explicit `% 2^w`
where the source truncates (the 16-bit CodeView range-length field).
-/

namespace ObjWriterModel

/-! ## Constants from the headers used by objwriter.cpp -/

/-- COFF section characteristic IMAGE_SCN_CNT_INITIALIZED_DATA. -/
def IMAGE_SCN_CNT_INITIALIZED_DATA : Nat := 0x00000040

/-- COFF section characteristic IMAGE_SCN_MEM_READ. -/
def IMAGE_SCN_MEM_READ : Nat := 0x40000000

/-- COFF section characteristic IMAGE_SCN_MEM_WRITE. -/
def IMAGE_SCN_MEM_WRITE : Nat := 0x80000000

/-- ELF section flag SHF_ALLOC. -/
def SHF_ALLOC : Nat := 0x2

/-- ELF section flag SHF_WRITE. -/
def SHF_WRITE : Nat := 0x1

/-- Win64EH::UNW_ExceptionHandler flag (llvm/Support/Win64EH.h). -/
def UNW_ExceptionHandler : Nat := 0x01

/-- Win64EH::UNW_TerminateHandler flag (llvm/Support/Win64EH.h). -/
def UNW_TerminateHandler : Nat := 0x02

/-- Win64EH::UNW_ChainInfo flag (llvm/Support/Win64EH.h). -/
def UNW_ChainInfo : Nat := 0x04

/-- COFF::DEBUG_SECTION_MAGIC (llvm/Support/COFF.h), the CodeView
signature value 4 written at the head of the debug-symbols section. -/
def DEBUG_SECTION_MAGIC : Nat := 4

/-- codeview::SymbolRecordKind::S_LOCAL. -/
def S_LOCAL : Nat := 0x113E

/-- codeview::SymbolRecordKind::S_DEFRANGE_REGISTER. -/
def S_DEFRANGE_REGISTER : Nat := 0x1141

/-- codeview::SymbolRecordKind::S_DEFRANGE_REGISTER_REL. -/
def S_DEFRANGE_REGISTER_REL : Nat := 0x1145

/-- codeview::SymbolRecordKind::S_GPROC32_ID. -/
def S_GPROC32_ID : Nat := 0x1147

/-- codeview::SymbolRecordKind::S_PROC_ID_END. -/
def S_PROC_ID_END : Nat := 0x114F

/-- codeview::ModuleSubstreamKind::Symbols. -/
def ModuleSubstreamKind_Symbols : Nat := 0xF1

/-! ## Symbol expressions (MCExpr trees built by the source) -/

/-- MCSymbolRefExpr variant kinds used by objwriter.cpp. -/
inductive VariantKind where
  | VK_None
  | VK_COFF_IMGREL32
deriving DecidableEq, Repr

/-- The deferred arithmetic expressions the source builds over MCExpr:
symbol references, signed constants, add and subtract.  `tempRef`
stands for a reference to an anonymous temporary label created with
createTempSymbol (the xdata frame label). -/
inductive MCExpr where
  | symbolRef (name : String) (kind : VariantKind)
  | tempRef (kind : VariantKind)
  | const (value : Int)
  | add (lhs rhs : MCExpr)
  | sub (lhs rhs : MCExpr)
deriving DecidableEq, Repr

/-- Evaluation of a symbol expression once symbols are resolved:
`env` assigns a value to each named symbol, `tmp` to the (single)
anonymous temporary label reachable from expressions built here. -/
def MCExpr.eval (env : String → Int) (tmp : Int) : MCExpr → Int
  | .symbolRef n _ => env n
  | .tempRef _ => tmp
  | .const v => v
  | .add a b => a.eval env tmp + b.eval env tmp
  | .sub a b => a.eval env tmp - b.eval env tmp

/-! ## Sections and streamer events -/

/-- A created custom section handle, per object format, as built by
CreateDataSection:
MachO: getMachOSection("__DATA", name, 0, kind);
COFF: getCOFFSection(name, characteristics, kind);
ELF: getELFSection(name, SHT_PROGBITS, flags). -/
inductive SectionHandle where
  | macho (segment : String) (name : String)
  | coff (name : String) (characteristics : Nat)
  | elf (name : String) (flags : Nat)
deriving DecidableEq, Repr

/-- The sections objwriter.cpp switches to: the well-known MOFI
sections and custom sections from the registry. -/
inductive Section where
  | text
  | data
  | rdata
  | xdata
  | pdata
  | debugSymbols
  | custom (name : String) (handle : SectionHandle)
deriving DecidableEq, Repr

/-- One call into the external streamer (MCStreamer/MCObjectStreamer),
recorded in source order.  `setHasInstructions` is the streamer-side
action of marking a section as containing executable instructions; it
is part of the vocabulary so that statements about its absence are
meaningful (no function of this file ever produces it, because no line
of objwriter.cpp performs it). -/
inductive Event where
  | switchSection (s : Section)
  | setHasInstructions (s : Section)
  | alignTo (n : Nat)
  | emitLabel
  | bytes (data : List Nat)
  | str (s : String)
  | strZ (s : String)
  | localSymBytes (typeIndex : Nat) (flags : Nat)
  | defRangeRegisterBytes (register : Nat)
  | defRangeRegisterRelBytes (baseRegister : Nat) (basePointerOffset : Int)
  | intValue (value : Int) (size : Nat)
  | value (e : MCExpr) (size : Int) (isPCRelative : Bool)
  | fill (numBytes : Nat) (v : Nat)
  | labelDiff (size : Nat)
  | secRel32 (symbolName : String)
  | secRel32Value (e : MCExpr)
  | sectionIndex (symbolName : String)
  | cvLinetable (funcId : Int) (functionName : String)
  | cfiStartProc
  | cfiEndProc
  | cfiAdjustCfaOffset (offset : Int)
  | cfiRelOffset (reg : Int) (offset : Int)
  | cfiDefCfaRegister (reg : Int)
deriving DecidableEq, Repr

/-! ## Debug variable data (jitDebugInfo.h side) -/

/-- ICorDebugInfo variable-location kinds, as enumerated in the switch
of EmitPDBDebugVarInfo. -/
inductive VarLocType where
  | VLT_REG
  | VLT_REG_BYREF
  | VLT_REG_FP
  | VLT_STK
  | VLT_STK_BYREF
  | VLT_REG_REG
  | VLT_REG_STK
  | VLT_STK_REG
  | VLT_STK2
  | VLT_FPSTK
  | VLT_FIXED_VA
deriving DecidableEq, Repr

/-- Modelled from the spec: the variable-location payload of
ICorDebugInfo::VarLoc (jitDebugInfo.h is not under src/).  The spec
describes it as a kind tag with kind-specific payload: a register id
(read as vlReg.vlrReg for VLT_REG / VLT_REG_FP), or a base register
plus stack offset (read as vlStk.vlsBaseReg / vlStk.vlsOffset for
VLT_STK). -/
structure VarLoc where
  vlType : VarLocType
  vlrReg : Nat
  vlsBaseReg : Nat
  vlsOffset : Int
deriving DecidableEq, Repr

/-- Modelled from the spec: ICorDebugInfo::NativeVarInfo
(jitDebugInfo.h is not under src/): a location range
{start offset, end offset, variable slot number, location}.  The
native offsets are unsigned 32-bit in the source. -/
structure NativeVarInfo where
  startOffset : Nat
  endOffset : Nat
  varNumber : Nat
  loc : VarLoc
deriving DecidableEq, Repr

/-- Modelled from the spec: DebugVarInfo (jitDebugInfo.h is not under
src/): {variable slot number, display name, type index, is-parameter
flag, ordered sequence of location ranges}, exactly the fields
objwriter.cpp initializes and reads. -/
structure DebugVarInfo where
  varNumber : Nat
  name : String
  typeIndex : Nat
  isParam : Bool
  ranges : List NativeVarInfo
deriving DecidableEq, Repr

/-! ## The ObjectWriter session state -/

/-- Object format of the target triple (Triple::getObjectFormat); the
default case of the format switch is `UnknownFormat`. -/
inductive ObjectFormat where
  | MachO
  | COFF
  | ELF
  | UnknownFormat
deriving DecidableEq, Repr

/-- The mutable emission state of the ObjectWriter session:
FrameOpened, FuncId, DebugVarInfos and CustomSections.  The external
LLVM sub-objects (streamer, context, backend) are out of scope; their
calls are recorded as events. -/
structure ObjectWriter where
  format : ObjectFormat
  frameOpened : Bool
  funcId : Int
  debugVarInfos : List DebugVarInfo
  customSections : List (String × SectionHandle)
deriving DecidableEq, Repr

/-- ObjectWriter::init: FrameOpened = false, FuncId = 1; the containers
start empty from construction of the fresh ObjectWriter object. -/
def ObjectWriter.init (format : ObjectFormat) : ObjectWriter :=
  { format := format
    frameOpened := false
    funcId := 1
    debugVarInfos := []
    customSections := [] }

/-! ## Symbol references (GetSymbolRefExpr / EmitSymbolRef) -/

/-- GetSymbolRefExpr: create (or look up) the named symbol and build a
symbol-reference expression of the given variant kind. -/
def GetSymbolRefExpr (symbolName : String)
    (kind : VariantKind := .VK_None) : MCExpr :=
  .symbolRef symbolName kind

/-- EmitSymbolRef: build the reference expression; switch on Size
(case 8: assert not pc-relative; case 4: if pc-relative subtract the
field width Size; default: assert false); if Delta is nonzero add the
constant; emit the expression with EmitValue(expr, Size, loc,
IsPCRelative).  The emitted EmitValue call is returned as the event. -/
def EmitSymbolRef (symbolName : String) (size : Int)
    (isPCRelative : Bool) (delta : Int) : Except String Event :=
  let targetExpr := GetSymbolRefExpr symbolName
  let afterSwitch : Except String MCExpr :=
    if size = 8 then
      if isPCRelative then
        .error "assert failed: NYI no support for 8 byte pc-relative"
      else
        .ok targetExpr
    else if size = 4 then
      .ok (if isPCRelative then
            .sub targetExpr (.const size)
          else
            targetExpr)
    else
      .error "assert failed: NYI symbol reference size!"
  match afterSwitch with
  | .error e => .error e
  | .ok e0 =>
    let e1 := if delta ≠ 0 then .add e0 (.const delta) else e0
    .ok (.value e1 size isPCRelative)

/-! ## Section registry (CreateDataSection / SwitchSection) -/

/-- CreateDataSection: assert the name is not already registered
(fatal duplicate otherwise); build a format-specific section (MachO
segment "__DATA"; COFF characteristics initialized-data + read, plus
write when not read-only; ELF SHF_ALLOC plus SHF_WRITE when not
read-only); the default format case reports an error and returns
false without registering anything; otherwise register the section
under the name and return true. -/
def CreateDataSection (ow : ObjectWriter) (sectionName : String)
    (isReadOnly : Bool) : Except String (ObjectWriter × Bool) :=
  if ow.customSections.any (fun p => p.1 = sectionName) then
    .error "assert failed: Section with duplicate name already exists"
  else
    match ow.format with
    | .MachO =>
      let s := SectionHandle.macho "__DATA" sectionName
      .ok ({ ow with
             customSections := ow.customSections ++ [(sectionName, s)] },
           true)
    | .COFF =>
      let characteristics :=
        (IMAGE_SCN_CNT_INITIALIZED_DATA ||| IMAGE_SCN_MEM_READ) |||
          (if isReadOnly then 0 else IMAGE_SCN_MEM_WRITE)
      let s := SectionHandle.coff sectionName characteristics
      .ok ({ ow with
             customSections := ow.customSections ++ [(sectionName, s)] },
           true)
    | .ELF =>
      let flags := SHF_ALLOC ||| (if isReadOnly then 0 else SHF_WRITE)
      let s := SectionHandle.elf sectionName flags
      .ok ({ ow with
             customSections := ow.customSections ++ [(sectionName, s)] },
           true)
    | .UnknownFormat =>
      .ok (ow, false)

/-- SwitchSection: resolve "text"/"data"/"rdata" to the well-known
MOFI sections, otherwise look the name up in the custom-section
registry (fatal assert "Unsupported section" when absent), and switch
the streamer to the resolved section. -/
def SwitchSection (ow : ObjectWriter) (sectionName : String) :
    Except String (List Event) :=
  if sectionName = "text" then
    .ok [.switchSection .text]
  else if sectionName = "data" then
    .ok [.switchSection .data]
  else if sectionName = "rdata" then
    .ok [.switchSection .rdata]
  else
    match ow.customSections.find? (fun p => p.1 = sectionName) with
    | some p => .ok [.switchSection (.custom p.1 p.2)]
    | none => .error "assert failed: Unsupported section"

/-! ## CFI emitter -/

/-- Modelled from the spec: the CFI opcode carried by a CFI_CODE blob
(cfi.h is not under src/).  The spec gives a small closed opcode set
{adjust-CFA-offset, register-relative-offset, define-CFA-register};
`unknownOp` stands for any other opcode value (fatal). -/
inductive CfiOpCode where
  | CFI_ADJUST_CFA_OFFSET
  | CFI_REL_OFFSET
  | CFI_DEF_CFA_REGISTER
  | unknownOp (value : Int)
deriving DecidableEq, Repr

/-- Modelled from the spec: the DWARF_REG_ILLEGAL sentinel (cfi.h is
not under src/), the "carries no register" register value the
adjust-CFA-offset payload must hold. -/
def DWARF_REG_ILLEGAL : Int := -1

/-- Modelled from the spec: the CFI_CODE payload blob (cfi.h is not
under src/), with the three fields objwriter.cpp reads: CfiOpCode,
DwarfReg, Offset. -/
structure CFI_CODE where
  CfiOpCode : CfiOpCode
  DwarfReg : Int
  Offset : Int
deriving DecidableEq, Repr

/-- EmitCFIStart: assert the frame is not already opened (fatal
otherwise); EmitCFIStartProc; set FrameOpened. -/
def EmitCFIStart (ow : ObjectWriter) :
    Except String (ObjectWriter × List Event) :=
  if ow.frameOpened then
    .error "assert failed: frame should be closed before CFIStart"
  else
    .ok ({ ow with frameOpened := true }, [.cfiStartProc])

/-- EmitCFIEnd: assert the frame is opened (fatal otherwise);
EmitCFIEndProc; clear FrameOpened. -/
def EmitCFIEnd (ow : ObjectWriter) :
    Except String (ObjectWriter × List Event) :=
  if ow.frameOpened then
    .ok ({ ow with frameOpened := false }, [.cfiEndProc])
  else
    .error "assert failed: frame should be opened before CFIEnd"

/-- EmitCFICode: assert the frame is opened (fatal otherwise);
dispatch on the opcode: adjust-CFA-offset asserts DwarfReg is the
illegal sentinel, register-relative-offset passes register and
offset through, define-CFA-register asserts Offset is zero;
unrecognized opcodes are fatal. -/
def EmitCFICode (ow : ObjectWriter) (code : CFI_CODE) :
    Except String (List Event) :=
  if ow.frameOpened then
    match code.CfiOpCode with
    | .CFI_ADJUST_CFA_OFFSET =>
      if code.DwarfReg = DWARF_REG_ILLEGAL then
        .ok [.cfiAdjustCfaOffset code.Offset]
      else
        .error "assert failed: Unexpected Register Value for OpAdjustCfaOffset"
    | .CFI_REL_OFFSET =>
      .ok [.cfiRelOffset code.DwarfReg code.Offset]
    | .CFI_DEF_CFA_REGISTER =>
      if code.Offset = 0 then
        .ok [.cfiDefCfaRegister code.DwarfReg]
      else
        .error "assert failed: Unexpected Offset Value for OpDefCfaRegister"
    | .unknownOp _ =>
      .error "assert failed: Unrecognized CFI"
  else
    .error "assert failed: frame should be opened before CFICode"

/-! ## EmitBlob and Windows frame info -/

/-- EmitBlob: append the blob bytes verbatim (EmitBytes) to the active
section. -/
def EmitBlob (blob : List Nat) : List Event :=
  [.bytes blob]

/-- Outcome of EmitWinFrameInfo: a completed emission trace, a fatal
assert (with the events already emitted before the abort), or an
out-of-bounds read of BlobData[0] (with the events already emitted
before the read), which the source performs without any guard on
BlobSize. -/
inductive WinFrameResult where
  | emitted (events : List Event)
  | fatalAssert (message : String) (eventsBefore : List Event)
  | undefinedRead (eventsBefore : List Event)
deriving DecidableEq, Repr

/-- EmitWinFrameInfo: assert the object format is COFF; switch to
xdata, align 4, bind a fresh temp label, copy the unwind blob, align
4; read BlobData[0] as the flags byte (an unguarded read: undefined
when the blob is empty); assert the chained-info bit (UNW_ChainInfo
shifted left by 3) is clear; if a handler bit (terminate or exception,
shifted left by 3) is set, assert the personality name is non-null and
emit a 4-byte image-relative reference to it; copy the LSDA when its
size is nonzero; then switch to pdata, align 4, and emit three 4-byte
image-relative values: function start + StartOffset, function start +
EndOffset, and a reference to the xdata temp label. -/
def EmitWinFrameInfo (ow : ObjectWriter) (functionName : String)
    (startOffset endOffset : Int) (blobData : List Nat)
    (personalityFunctionName : Option String) (lsda : List Nat) :
    WinFrameResult :=
  if ow.format ≠ .COFF then
    .fatalAssert "assert failed: getObjectFileType() == IsCOFF" []
  else
    let xdataEvents : List Event :=
      [.switchSection .xdata, .alignTo 4, .emitLabel] ++
        EmitBlob blobData ++ [.alignTo 4]
    match blobData with
    | [] => .undefinedRead xdataEvents
    | flags :: _ =>
      if flags &&& (UNW_ChainInfo <<< 3) ≠ 0 then
        .fatalAssert
          "assert failed: (flags and (UNW_ChainInfo shl 3)) == 0"
          xdataEvents
      else
        let personalityEvents? : Option (List Event) :=
          if flags &&&
              ((UNW_TerminateHandler ||| UNW_ExceptionHandler) <<< 3)
              ≠ 0 then
            match personalityFunctionName with
            | none => none
            | some pn =>
              some [.value (GetSymbolRefExpr pn .VK_COFF_IMGREL32) 4 false]
          else
            some []
        match personalityEvents? with
        | none =>
          .fatalAssert
            "assert failed: PersonalityFunctionName != nullptr"
            xdataEvents
        | some personalityEvents =>
          let lsdaEvents := if lsda.length ≠ 0 then EmitBlob lsda else []
          let baseRefRel := GetSymbolRefExpr functionName .VK_COFF_IMGREL32
          let pdataEvents : List Event :=
            [.switchSection .pdata, .alignTo 4,
             .value (.add baseRefRel (.const startOffset)) 4 false,
             .value (.add baseRefRel (.const endOffset)) 4 false,
             .value (.tempRef .VK_COFF_IMGREL32) 4 false]
          .emitted (xdataEvents ++ personalityEvents ++
                    lsdaEvents ++ pdataEvents)

/-! ## Debug variable accumulation (EmitDebugVar) -/

/-- EmitDebugVar: return immediately when the range count is zero;
otherwise take the variable slot number from the first range, build
one DebugVarInfo {that slot number, name, type index, is-parameter
flag}, and loop over all ranges asserting each shares that slot
number (fatal on mismatch; the source asserts each range before
pushing it) while appending them to the record; push the record onto
the pending DebugVarInfos list. -/
def EmitDebugVar (ow : ObjectWriter) (name : String) (typeIndex : Nat)
    (isParm : Bool) (ranges : List NativeVarInfo) :
    Except String ObjectWriter :=
  match ranges with
  | [] => .ok ow
  | r0 :: _ =>
    if ranges.all (fun r => r.varNumber = r0.varNumber) then
      .ok { ow with
            debugVarInfos := ow.debugVarInfos ++
              [{ varNumber := r0.varNumber
                 name := name
                 typeIndex := typeIndex
                 isParam := isParm
                 ranges := ranges }] }
    else
      .error "assert failed: var.varNumber == varInfos[i].varNumber"

/-! ## PDB/CodeView debug variable and function info emission -/

/-- Modelled from the spec: the cvRegMapAmd64 register-numbering table
(its defining header is not under src/); the spec only says register
ids are "mapped through the target's register-numbering table" without
enumerating it, so the identity map stands in.  No claim of this
development depends on the values of this table. -/
def cvRegMapAmd64 (r : Nat) : Nat := r

/-- Byte size of the codeview LocalSym payload written for an S_LOCAL
record: a 4-byte type index followed by a 2-byte flags field (packed
little-endian struct, no padding). -/
def sizeofLocalSym : Nat := 6

/-- LocalSymFlags::IsParameter. -/
def LocalSym_IsParameter : Nat := 1

/-- The codeview LocalVariableAddrRange record embedded in def-range
records: a 32-bit OffsetStart, a 16-bit ISectStart and a 16-bit Range
(length) field. -/
structure LocalVariableAddrRange where
  OffsetStart : Nat
  ISectStart : Nat
  Range : Nat
deriving DecidableEq, Repr

/-- The value stored in the 16-bit Range field:
endOffset - startOffset computed on the unsigned 32-bit native
offsets, then truncated to the 16-bit field. -/
def rangeLenVal (startOffset endOffset : Nat) : Nat :=
  ((((endOffset : Int) - (startOffset : Int)) % 4294967296) % 65536).toNat

/-- The LocalVariableAddrRange built for one location range:
OffsetStart = range.startOffset (32-bit), Range = endOffset -
startOffset (truncated to the 16-bit field), ISectStart = 0. -/
def mkAddrRange (range : NativeVarInfo) : LocalVariableAddrRange :=
  { OffsetStart := range.startOffset % 4294967296
    ISectStart := 0
    Range := rangeLenVal range.startOffset range.endOffset }

/-- The switch of EmitPDBDebugVarInfo over the location kind of one
range: register locations (VLT_REG / VLT_REG_FP) build a
S_DEFRANGE_REGISTER record (reclen = sizeof rec 12 + sizeof rectyp 2 =
14) whose header bytes (up to offsetof Range) carry the mapped
register; stack locations (VLT_STK) build a S_DEFRANGE_REGISTER_REL
record (reclen = sizeof rec 16 + sizeof rectyp 2 = 18) whose header
bytes carry the mapped base register and the base-pointer offset; all
remaining kinds leave prange null and emit nothing (reserved for
optimized debugging).  Returns the optional built range and the
record events. -/
def rangeRecordPart (range : NativeVarInfo) :
    Option LocalVariableAddrRange × List Event :=
  match range.loc.vlType with
  | .VLT_REG | .VLT_REG_FP =>
    let rng := mkAddrRange range
    (some rng,
     [.intValue 14 2,
      .intValue (Int.ofNat S_DEFRANGE_REGISTER) 2,
      .defRangeRegisterBytes (cvRegMapAmd64 range.loc.vlrReg)])
  | .VLT_STK =>
    let rng := mkAddrRange range
    (some rng,
     [.intValue 18 2,
      .intValue (Int.ofNat S_DEFRANGE_REGISTER_REL) 2,
      .defRangeRegisterRelBytes (cvRegMapAmd64 range.loc.vlsBaseReg)
        range.loc.vlsOffset])
  | _ => (none, [])

/-- The tail emitted after a non-null range record: a section-relative
value (function symbol + OffsetStart), the section index of the
function symbol, and the 2-byte Range (length) value. -/
def emitRangeTail (fnName : String) (rng : LocalVariableAddrRange) :
    List Event :=
  [.secRel32Value (.add (.symbolRef fnName .VK_None)
      (.const (Int.ofNat rng.OffsetStart))),
   .sectionIndex fnName,
   .intValue (Int.ofNat rng.Range) 2]

/-- One location range of one variable: the kind-dispatched record
part followed, when a range record was built, by the section-relative
address and 2-byte length tail. -/
def emitVarRange (fnName : String) (range : NativeVarInfo) :
    List Event :=
  match rangeRecordPart range with
  | (some rng, recEvents) => recEvents ++ emitRangeTail fnName rng
  | (none, recEvents) => recEvents

/-- One pending variable: the S_LOCAL record {reclen = 2 +
sizeof LocalSym + name length + 1, record kind, LocalSym bytes (type
index and the parameter flag), the null-terminated name}, followed by
its location ranges; each range is asserted to share the variable slot
number (fatal on mismatch). -/
def emitVarInfo (fnName : String) (var : DebugVarInfo) :
    Except String (List Event) :=
  let reclen := 2 + sizeofLocalSym + var.name.length + 1
  let headerEvents : List Event :=
    [.intValue (Int.ofNat reclen) 2,
     .intValue (Int.ofNat S_LOCAL) 2,
     .localSymBytes var.typeIndex
       (if var.isParam then LocalSym_IsParameter else 0),
     .strZ var.name]
  if var.ranges.all (fun r => r.varNumber = var.varNumber) then
    .ok (headerEvents ++ (var.ranges.map (emitVarRange fnName)).flatten)
  else
    .error "assert failed: range.varNumber == var.varNumber"

/-- EmitPDBDebugVarInfo: the S_LOCAL record and range records of every
pending variable, in order. -/
def EmitPDBDebugVarInfo (fnName : String) :
    List DebugVarInfo → Except String (List Event)
  | [] => .ok []
  | v :: rest =>
    match emitVarInfo fnName v with
    | .error e => .error e
    | .ok evs =>
      match EmitPDBDebugVarInfo fnName rest with
      | .error e => .error e
      | .ok evsRest => .ok (evs ++ evsRest)

/-- The S_GPROC32_ID procedure record of EmitPDBDebugFunctionInfo: a
2-byte length-prefix label difference, the segment begin label, the
record kind, 12 reserved zero bytes, the function size (4 bytes), 4
zero bytes (SS_DBGSTART), the function size again (SS_DBGEND), 4 zero
bytes (SS_TINDEX), a section-relative offset and a section index of
the function symbol, the 0x80 flags byte, the display name as a
null-terminated string, and the segment end label. -/
def procRecordEvents (functionName : String) (functionSize : Int) :
    List Event :=
  [.labelDiff 2,
   .emitLabel,
   .intValue (Int.ofNat S_GPROC32_ID) 2,
   .fill 12 0,
   .intValue functionSize 4,
   .fill 4 0,
   .intValue functionSize 4,
   .fill 4 0,
   .secRel32 functionName,
   .sectionIndex functionName,
   .intValue 0x80 1,
   .str functionName,
   .intValue 0 1,
   .emitLabel]

/-- EmitPDBDebugFunctionInfo: bind the function-end temp label; switch
to the debug-symbols section; emit the debug-section magic when this
is the first function (FuncId == 1); open the Symbols subsection
(kind, length-prefix label difference, begin label); emit the
procedure record; when pending variables exist, emit them and clear
the pending list; close with the 2-byte terminator length and
S_PROC_ID_END; bind the subsection end label; align to 4; emit the
line-table directive with the current FuncId and post-increment the
counter. -/
def EmitPDBDebugFunctionInfo (ow : ObjectWriter)
    (functionName : String) (functionSize : Int) :
    Except String (ObjectWriter × List Event) :=
  let varResult :=
    if ow.debugVarInfos.length > 0 then
      EmitPDBDebugVarInfo functionName ow.debugVarInfos
    else
      .ok []
  match varResult with
  | .error e => .error e
  | .ok varEvents =>
    .ok ({ ow with funcId := ow.funcId + 1, debugVarInfos := [] },
         [.emitLabel, .switchSection .debugSymbols] ++
           (if ow.funcId = 1 then
             [.intValue (Int.ofNat DEBUG_SECTION_MAGIC) 4]
           else
             []) ++
           [.intValue (Int.ofNat ModuleSubstreamKind_Symbols) 4,
            .labelDiff 4, .emitLabel] ++
           procRecordEvents functionName functionSize ++
           varEvents ++
           [.intValue 0x0002 2,
            .intValue (Int.ofNat S_PROC_ID_END) 2,
            .emitLabel,
            .alignTo 4,
            .cvLinetable ow.funcId functionName])

/-- EmitDebugFunctionInfo: dispatch to the PDB path on COFF, a silent
no-op on every other object format. -/
def EmitDebugFunctionInfo (ow : ObjectWriter) (functionName : String)
    (functionSize : Int) : Except String (ObjectWriter × List Event) :=
  if ow.format = .COFF then
    EmitPDBDebugFunctionInfo ow functionName functionSize
  else
    .ok (ow, [])

/-- A sequence of EmitDebugFunctionInfo calls against a session,
returning the final state and the per-call event traces. -/
def runDebugFns (ow : ObjectWriter) :
    List (String × Int) → Except String (ObjectWriter × List (List Event))
  | [] => .ok (ow, [])
  | (f, s) :: rest =>
    match EmitDebugFunctionInfo ow f s with
    | .error e => .error e
    | .ok (ow1, t) =>
      match runDebugFns ow1 rest with
      | .error e => .error e
      | .ok (ow2, ts) => .ok (ow2, t :: ts)

/-- Whether a per-call trace opens with the COFF debug-section magic:
the function-end label, the switch to the debug-symbols section, and
then the 4-byte magic value. -/
def magicAt : List Event → Bool
  | e1 :: e2 :: e3 :: _ =>
    decide (e1 = .emitLabel) &&
      decide (e2 = .switchSection .debugSymbols) &&
      decide (e3 = .intValue (Int.ofNat DEBUG_SECTION_MAGIC) 4)
  | _ => false

/-! ## Theorems -/

/-- C1: every EmitSymbolRef call with size 4, pc-relative and delta 0
emits an expression equal to the symbol reference minus 4; with delta
5 it equals the symbol reference minus 4 plus 5; and with size 4,
non-pc-relative, the emitted expression equals the plain symbol
reference plus delta (no bias), for every delta. -/
theorem C1_symbolRef_pcrel_bias (name : String) (env : String → Int)
    (tmp : Int) (delta : Int) :
    (∃ e, EmitSymbolRef name 4 true 0 = .ok (.value e 4 true) ∧
       e.eval env tmp = env name - 4) ∧
    (∃ e, EmitSymbolRef name 4 true 5 = .ok (.value e 4 true) ∧
       e.eval env tmp = env name - 4 + 5) ∧
    (∃ e, EmitSymbolRef name 4 false delta = .ok (.value e 4 false) ∧
       e.eval env tmp = env name + delta) := by
  refine ⟨⟨_, rfl, by simp [GetSymbolRefExpr, MCExpr.eval]⟩,
          ⟨_, rfl, by simp [GetSymbolRefExpr, MCExpr.eval]⟩, ?_⟩
  by_cases h : delta = 0
  · subst h
    exact ⟨_, rfl, by simp [GetSymbolRefExpr, MCExpr.eval]⟩
  · refine ⟨.add (GetSymbolRefExpr name) (.const delta), ?_, ?_⟩
    · simp [EmitSymbolRef, h]
    · simp [GetSymbolRefExpr, MCExpr.eval]

/-- C8: EmitSymbolRef is fatal for size 8 pc-relative and for every
size other than 4 and 8; size-8 non-pc-relative and size-4 calls are
accepted. -/
theorem C8_symbolRef_size_errors (name : String) (delta : Int)
    (size : Int) (isPCRelative : Bool) :
    (∃ msg, EmitSymbolRef name 8 true delta = .error msg) ∧
    (size ≠ 4 → size ≠ 8 →
       ∃ msg, EmitSymbolRef name size isPCRelative delta = .error msg) ∧
    (∃ ev, EmitSymbolRef name 8 false delta = .ok ev) ∧
    (∃ ev, EmitSymbolRef name 4 isPCRelative delta = .ok ev) := by
  refine ⟨⟨_, rfl⟩, ?_, ⟨_, rfl⟩, ⟨_, rfl⟩⟩
  intro h4 h8
  refine ⟨"assert failed: NYI symbol reference size!", ?_⟩
  simp [EmitSymbolRef, h4, h8]

/-- C8 witness: instantiated at a concrete rejected size (3). -/
theorem C8_symbolRef_size_errors_witness :
    (∃ msg, EmitSymbolRef "s" 8 true 7 = .error msg) ∧
    (∃ msg, EmitSymbolRef "s" 3 true 7 = .error msg) ∧
    (∃ ev, EmitSymbolRef "s" 8 false 7 = .ok ev) ∧
    (∃ ev, EmitSymbolRef "s" 4 true 7 = .ok ev) := by
  obtain ⟨h1, h2, h3, h4⟩ := C8_symbolRef_size_errors "s" 7 3 true
  exact ⟨h1, h2 (by decide) (by decide), h3, h4⟩

/-- C3: the CFI frame state machine over the single open-frame flag:
from a closed state EmitCFIStart succeeds and opens the frame, and
EmitCFIEnd on the resulting open state succeeds and closes it;
EmitCFIEnd with no open frame is fatal; EmitCFIStart on an open frame
is fatal; EmitCFICode with no open frame is fatal. -/
theorem C3_cfi_frame_state_machine (ow : ObjectWriter)
    (code : CFI_CODE) :
    (EmitCFIStart { ow with frameOpened := false } =
       .ok ({ ow with frameOpened := true }, [.cfiStartProc])) ∧
    (EmitCFIEnd { ow with frameOpened := true } =
       .ok ({ ow with frameOpened := false }, [.cfiEndProc])) ∧
    (∃ msg, EmitCFIEnd { ow with frameOpened := false } = .error msg) ∧
    (∃ msg, EmitCFIStart { ow with frameOpened := true } = .error msg) ∧
    (∃ msg, EmitCFICode { ow with frameOpened := false } code =
       .error msg) :=
  ⟨rfl, rfl, ⟨_, rfl⟩, ⟨_, rfl⟩, ⟨_, rfl⟩⟩

/-- C4 counterexample: SwitchSection on the well-known code section
"text" performs exactly one streamer action, the switch itself; it
does not mark the section as containing executable instructions (no
setHasInstructions action occurs), contrary to the claim. -/
theorem C4_counterexample :
    ¬ (∃ evs, SwitchSection (ObjectWriter.init .COFF) "text" = .ok evs ∧
        Event.setHasInstructions Section.text ∈ evs) := by
  rintro ⟨evs, heq, hmem⟩
  have h : SwitchSection (ObjectWriter.init .COFF) "text" =
      .ok [.switchSection .text] := rfl
  rw [h] at heq
  cases Except.ok.inj heq
  simp at hmem

/-- C4 amended: for every session state, SwitchSection with the
well-known code section name "text" makes the text section the active
write target and performs no other action; in particular it does not
mark the section as containing executable instructions. -/
theorem C4_switchSection_text (ow : ObjectWriter) :
    SwitchSection ow "text" = .ok [.switchSection .text] ∧
    Event.setHasInstructions Section.text ∉
      [Event.switchSection Section.text] := by
  exact ⟨rfl, by simp⟩

/-- C5: EmitDebugVar with an empty range list is a pure no-op on the
session state; with a non-empty range list whose variable-slot
numbers all agree it appends exactly one record, carrying the first
range's slot number and all the ranges, to the pending list; a range
list with disagreeing slot numbers is a fatal error. -/
theorem C5_emitDebugVar (ow : ObjectWriter) (name : String)
    (typeIndex : Nat) (isParm : Bool) :
    (EmitDebugVar ow name typeIndex isParm [] = .ok ow) ∧
    (∀ r0 rest, (∀ r ∈ r0 :: rest, r.varNumber = r0.varNumber) →
       EmitDebugVar ow name typeIndex isParm (r0 :: rest) =
         .ok { ow with debugVarInfos := ow.debugVarInfos ++
           [{ varNumber := r0.varNumber
              name := name
              typeIndex := typeIndex
              isParam := isParm
              ranges := r0 :: rest }] }) ∧
    (∀ r0 rest, (∃ r ∈ r0 :: rest, r.varNumber ≠ r0.varNumber) →
       ∃ msg, EmitDebugVar ow name typeIndex isParm (r0 :: rest) =
         .error msg) := by
  refine ⟨rfl, ?_, ?_⟩
  · intro r0 rest hall
    have hcond : ((r0 :: rest).all
        (fun r => decide (r.varNumber = r0.varNumber))) = true := by
      simp only [List.all_eq_true, decide_eq_true_eq]
      exact hall
    simp [EmitDebugVar, hcond]
  · intro r0 rest hne
    have hcond : ((r0 :: rest).all
        (fun r => decide (r.varNumber = r0.varNumber))) = false := by
      obtain ⟨r, hr, hrne⟩ := hne
      simp only [List.all_eq_false]
      exact ⟨r, hr, by simpa using hrne⟩
    refine ⟨"assert failed: var.varNumber == varInfos[i].varNumber", ?_⟩
    simp [EmitDebugVar, hcond]

/-- C5 witness: instantiated on a fresh COFF session with an agreeing
two-range list (slot 5) and a disagreeing one (slots 5 and 6). -/
theorem C5_emitDebugVar_witness :
    (EmitDebugVar (ObjectWriter.init .COFF) "x" 3 false [] =
       .ok (ObjectWriter.init .COFF)) ∧
    (EmitDebugVar (ObjectWriter.init .COFF) "x" 3 false
        [⟨0, 4, 5, ⟨.VLT_REG, 1, 0, 0⟩⟩, ⟨4, 8, 5, ⟨.VLT_STK, 0, 2, -8⟩⟩] =
      .ok { ObjectWriter.init .COFF with debugVarInfos :=
        [{ varNumber := 5
           name := "x"
           typeIndex := 3
           isParam := false
           ranges := [⟨0, 4, 5, ⟨.VLT_REG, 1, 0, 0⟩⟩,
                      ⟨4, 8, 5, ⟨.VLT_STK, 0, 2, -8⟩⟩] }] }) ∧
    (∃ msg, EmitDebugVar (ObjectWriter.init .COFF) "x" 3 false
        [⟨0, 4, 5, ⟨.VLT_REG, 1, 0, 0⟩⟩, ⟨4, 8, 6, ⟨.VLT_REG, 1, 0, 0⟩⟩] =
      .error msg) := by
  obtain ⟨h1, h2, h3⟩ :=
    C5_emitDebugVar (ObjectWriter.init .COFF) "x" 3 false
  refine ⟨h1, ?_, ?_⟩
  · have := h2 ⟨0, 4, 5, ⟨.VLT_REG, 1, 0, 0⟩⟩
      [⟨4, 8, 5, ⟨.VLT_STK, 0, 2, -8⟩⟩] (by decide)
    simpa using this
  · exact h3 ⟨0, 4, 5, ⟨.VLT_REG, 1, 0, 0⟩⟩
      [⟨4, 8, 6, ⟨.VLT_REG, 1, 0, 0⟩⟩]
      ⟨⟨4, 8, 6, ⟨.VLT_REG, 1, 0, 0⟩⟩, by simp, by decide⟩

/-- C6: CreateDataSection with a name not yet registered, on a session
whose object format is known, succeeds (returns true) and registers
the section; calling CreateDataSection again with the same name is a
fatal duplicate-definition error. -/
theorem C6_createDataSection_duplicate (ow : ObjectWriter)
    (name : String) (isReadOnly : Bool)
    (hfmt : ow.format ≠ .UnknownFormat)
    (hnew : ow.customSections.any
      (fun p => decide (p.1 = name)) = false) :
    ∃ ow1, CreateDataSection ow name isReadOnly = .ok (ow1, true) ∧
      ow1.customSections.any (fun p => decide (p.1 = name)) = true ∧
      ∃ msg, CreateDataSection ow1 name isReadOnly = .error msg := by
  have hdup : ∀ h : SectionHandle,
      ((ow.customSections ++ [(name, h)]).any
        (fun p => decide (p.1 = name))) = true := by
    intro h
    simp [List.any_append]
  cases hf : ow.format with
  | UnknownFormat => exact absurd hf hfmt
  | MachO =>
    refine ⟨{ ow with customSections :=
        ow.customSections ++ [(name, .macho "__DATA" name)] },
      ?_, hdup _,
      "assert failed: Section with duplicate name already exists", ?_⟩
    · simp [CreateDataSection, hnew, hf]
    · simp [CreateDataSection, hdup]
  | COFF =>
    refine ⟨{ ow with customSections := ow.customSections ++
        [(name, .coff name
          ((IMAGE_SCN_CNT_INITIALIZED_DATA ||| IMAGE_SCN_MEM_READ) |||
            (if isReadOnly then 0 else IMAGE_SCN_MEM_WRITE)))] },
      ?_, hdup _,
      "assert failed: Section with duplicate name already exists", ?_⟩
    · simp [CreateDataSection, hnew, hf]
    · simp [CreateDataSection, hdup]
  | ELF =>
    refine ⟨{ ow with customSections := ow.customSections ++
        [(name, .elf name
          (SHF_ALLOC ||| (if isReadOnly then 0 else SHF_WRITE)))] },
      ?_, hdup _,
      "assert failed: Section with duplicate name already exists", ?_⟩
    · simp [CreateDataSection, hnew, hf]
    · simp [CreateDataSection, hdup]

/-- C6 witness: instantiated on a fresh COFF session with section name
"mydata", read-only. -/
theorem C6_createDataSection_duplicate_witness :
    ∃ ow1, CreateDataSection (ObjectWriter.init .COFF) "mydata" true =
        .ok (ow1, true) ∧
      ow1.customSections.any (fun p => decide (p.1 = "mydata")) = true ∧
      ∃ msg, CreateDataSection ow1 "mydata" true = .error msg :=
  C6_createDataSection_duplicate (ObjectWriter.init .COFF) "mydata" true
    (by decide) (by decide)

/-- C7: EmitWinFrameInfo whose unwind blob first byte has the
chained-info bit set is fatal, and the events emitted before the
abort are exactly the xdata-side prefix: no pdata-section emission
occurs on this error path. -/
theorem C7_winFrame_chained_fatal (ow : ObjectWriter)
    (functionName : String) (startOffset endOffset : Int) (b : Nat)
    (rest : List Nat) (personality : Option String) (lsda : List Nat)
    (hfmt : ow.format = .COFF)
    (hbit : b &&& (UNW_ChainInfo <<< 3) ≠ 0) :
    EmitWinFrameInfo ow functionName startOffset endOffset (b :: rest)
        personality lsda =
      .fatalAssert "assert failed: (flags and (UNW_ChainInfo shl 3)) == 0"
        [.switchSection .xdata, .alignTo 4, .emitLabel,
         .bytes (b :: rest), .alignTo 4] ∧
    Event.switchSection Section.pdata ∉
      [Event.switchSection Section.xdata, Event.alignTo 4,
       Event.emitLabel, Event.bytes (b :: rest), Event.alignTo 4] := by
  constructor
  · simp [EmitWinFrameInfo, EmitBlob, hfmt, hbit]
  · simp

/-- C7 witness: instantiated at a concrete one-byte blob 0x20, whose
chained-info bit (UNW_ChainInfo shifted left by 3) is set. -/
theorem C7_winFrame_chained_fatal_witness :
    EmitWinFrameInfo (ObjectWriter.init .COFF) "f" 0 16 [0x20] none [] =
      .fatalAssert "assert failed: (flags and (UNW_ChainInfo shl 3)) == 0"
        [.switchSection .xdata, .alignTo 4, .emitLabel,
         .bytes [0x20], .alignTo 4] ∧
    Event.switchSection Section.pdata ∉
      [Event.switchSection Section.xdata, Event.alignTo 4,
       Event.emitLabel, Event.bytes [0x20], Event.alignTo 4] :=
  C7_winFrame_chained_fatal (ObjectWriter.init .COFF) "f" 0 16 0x20 []
    none [] rfl (by decide)

/-- C10 (implicit): on the COFF path EmitWinFrameInfo reads the first
unwind-blob byte without any guard on the blob size: with an empty
blob the read is reached (after the xdata prefix, including the copy
of the empty blob, has been emitted) and is out of bounds, so the
operation is well-defined only under the unstated precondition that
the blob is non-empty; with any non-empty blob the out-of-bounds read
cannot occur. -/
theorem C10_winFrame_blob_read (ow : ObjectWriter)
    (functionName : String) (startOffset endOffset : Int)
    (personality : Option String) (lsda : List Nat)
    (hfmt : ow.format = .COFF) :
    (EmitWinFrameInfo ow functionName startOffset endOffset []
        personality lsda =
      .undefinedRead [.switchSection .xdata, .alignTo 4, .emitLabel,
                      .bytes [], .alignTo 4]) ∧
    (∀ b rest evs,
       EmitWinFrameInfo ow functionName startOffset endOffset (b :: rest)
           personality lsda ≠ .undefinedRead evs) := by
  constructor
  · simp [EmitWinFrameInfo, EmitBlob, hfmt]
  · intro b rest evs
    simp only [EmitWinFrameInfo, EmitBlob, hfmt]
    split
    · simp_all
    · split
      · simp
      · split
        · simp
        · simp

/-- C10 witness: instantiated on a fresh COFF session. -/
theorem C10_winFrame_blob_read_witness :
    (EmitWinFrameInfo (ObjectWriter.init .COFF) "f" 0 16 [] none [] =
      .undefinedRead [.switchSection .xdata, .alignTo 4, .emitLabel,
                      .bytes [], .alignTo 4]) ∧
    (∀ evs, EmitWinFrameInfo (ObjectWriter.init .COFF) "f" 0 16 [0]
        none [] ≠ .undefinedRead evs) := by
  obtain ⟨h1, h2⟩ :=
    C10_winFrame_blob_read (ObjectWriter.init .COFF) "f" 0 16 none [] rfl
  exact ⟨h1, h2 0 []⟩

/-- One COFF-path EmitDebugFunctionInfo step from a state with no
pending variables: the call succeeds, increments FuncId by one, and
its trace opens with the debug-section magic exactly when FuncId was
1. -/
lemma emitDebugFn_coff_step (ow : ObjectWriter) (f : String) (s : Int)
    (hfmt : ow.format = .COFF) (hvars : ow.debugVarInfos = []) :
    ∃ t, EmitDebugFunctionInfo ow f s =
        .ok ({ ow with funcId := ow.funcId + 1, debugVarInfos := [] }, t) ∧
      magicAt t = decide (ow.funcId = 1) := by
  refine ⟨[.emitLabel, .switchSection .debugSymbols] ++
      (if ow.funcId = 1 then
        [.intValue (Int.ofNat DEBUG_SECTION_MAGIC) 4]
      else
        []) ++
      [.intValue (Int.ofNat ModuleSubstreamKind_Symbols) 4,
       .labelDiff 4, .emitLabel] ++
      procRecordEvents f s ++
      [.intValue 0x0002 2,
       .intValue (Int.ofNat S_PROC_ID_END) 2,
       .emitLabel,
       .alignTo 4,
       .cvLinetable ow.funcId f], ?_, ?_⟩
  · simp [EmitDebugFunctionInfo, hfmt, EmitPDBDebugFunctionInfo, hvars]
  · by_cases h1 : ow.funcId = 1
    · simp [h1, magicAt]
    · simp [h1, magicAt, ModuleSubstreamKind_Symbols, DEBUG_SECTION_MAGIC]

/-- A run of EmitDebugFunctionInfo calls on a COFF session with no
pending variables: every call succeeds, FuncId advances by the number
of calls, and the trace of the k-th call opens with the magic exactly
when the FuncId it observed was 1. -/
lemma runDebugFns_coff (calls : List (String × Int)) :
    ∀ ow : ObjectWriter, ow.format = .COFF → ow.debugVarInfos = [] →
    ∃ owF traces,
      runDebugFns ow calls = .ok (owF, traces) ∧
      owF.format = .COFF ∧ owF.debugVarInfos = [] ∧
      owF.funcId = ow.funcId + calls.length ∧
      traces.map magicAt =
        (List.range calls.length).map
          (fun k : Nat => decide (ow.funcId + (k : Int) = 1)) := by
  induction calls with
  | nil =>
    intro ow hfmt hvars
    exact ⟨ow, [], rfl, hfmt, hvars, by simp, by simp⟩
  | cons c rest ih =>
    intro ow hfmt hvars
    obtain ⟨f, s⟩ := c
    obtain ⟨t, hstep, hmagic⟩ := emitDebugFn_coff_step ow f s hfmt hvars
    obtain ⟨owF, traces, hrun, hfmtF, hvarsF, hfuncF, hmapF⟩ :=
      ih { ow with funcId := ow.funcId + 1, debugVarInfos := [] }
        hfmt rfl
    refine ⟨owF, t :: traces, ?_, hfmtF, hvarsF, ?_, ?_⟩
    · simp only [runDebugFns, hstep, hrun]
    · simp only [hfuncF, List.length_cons]
      push_cast
      ring
    · simp only [List.map_cons, hmagic, hmapF, List.length_cons]
      rw [List.range_succ_eq_map, List.map_cons, List.map_map]
      congr 1
      · simp
      · apply List.map_congr_left
        intro k _
        simp only [Function.comp_apply]
        rw [decide_eq_decide]
        push_cast
        omega

/-- C2: on the COFF path, the function-id counter starts at 1 after
session initialization; every completed EmitDebugFunctionInfo call
increments it by exactly 1; and over any run of calls the COFF
debug-section magic is emitted in the first call only (when the
counter equals 1), hence exactly once when any function is emitted. -/
theorem C2_funcId_counter_and_magic (calls : List (String × Int)) :
    (ObjectWriter.init .COFF).funcId = 1 ∧
    (∀ ow f s ow1 t, ow.format = .COFF →
       EmitDebugFunctionInfo ow f s = .ok (ow1, t) →
       ow1.funcId = ow.funcId + 1) ∧
    (∃ owF traces,
       runDebugFns (ObjectWriter.init .COFF) calls = .ok (owF, traces) ∧
       owF.funcId = 1 + (calls.length : Int) ∧
       traces.map magicAt =
         (List.range calls.length).map
           (fun k : Nat => decide (k = 0))) := by
  refine ⟨rfl, ?_, ?_⟩
  · intro ow f s ow1 t hfmt heq
    rw [EmitDebugFunctionInfo, if_pos hfmt, EmitPDBDebugFunctionInfo] at heq
    cases hv : (if ow.debugVarInfos.length > 0 then
        EmitPDBDebugVarInfo f ow.debugVarInfos else .ok []) with
    | error e => rw [hv] at heq; cases heq
    | ok varEvents =>
      rw [hv] at heq
      cases heq
      rfl
  · obtain ⟨owF, traces, hrun, _, _, hfunc, hmap⟩ :=
      runDebugFns_coff calls (ObjectWriter.init .COFF) rfl rfl
    refine ⟨owF, traces, hrun, by simpa using hfunc, ?_⟩
    rw [hmap]
    apply List.map_congr_left
    intro k _
    rw [decide_eq_decide]
    show ((ObjectWriter.init .COFF).funcId + (k : Int) = 1) ↔ (k = 0)
    show ((1 : Int) + (k : Int) = 1) ↔ (k = 0)
    omega

/-- C2 witness: a run of two EmitDebugFunctionInfo calls on a fresh
COFF session: the counter goes 1 to 3, and only the first trace opens
with the magic. -/
theorem C2_funcId_counter_and_magic_witness :
    (ObjectWriter.init .COFF).funcId = 1 ∧
    (∃ ow1 t, EmitDebugFunctionInfo (ObjectWriter.init .COFF) "f" 1 =
        .ok (ow1, t) ∧ ow1.funcId = (ObjectWriter.init .COFF).funcId + 1) ∧
    (∃ owF traces,
       runDebugFns (ObjectWriter.init .COFF) [("f", 1), ("g", 2)] =
         .ok (owF, traces) ∧
       owF.funcId = 3 ∧
       traces.map magicAt = [true, false]) := by
  obtain ⟨h1, h2, h3⟩ := C2_funcId_counter_and_magic [("f", 1), ("g", 2)]
  refine ⟨h1, ?_, ?_⟩
  · cases he : EmitDebugFunctionInfo (ObjectWriter.init .COFF) "f" 1 with
    | error e =>
      have hok : (EmitDebugFunctionInfo
          (ObjectWriter.init .COFF) "f" 1).isOk = true := rfl
      rw [he] at hok
      cases hok
    | ok p =>
      obtain ⟨ow1, t⟩ := p
      exact ⟨ow1, t, rfl,
        h2 (ObjectWriter.init .COFF) "f" 1 ow1 t rfl he⟩
  · obtain ⟨owF, traces, hrun, hfunc, hmap⟩ := h3
    refine ⟨owF, traces, hrun, by simpa using hfunc, ?_⟩
    rw [hmap]
    decide

/-- C9 counterexample: a register-location range with start offset 0
and end offset 65536 (start ≤ end) is emitted with length field 0,
not 65536: the 16-bit Range field truncates the difference, so the
claimed exact equality fails on this input, both in the record Range
field and in the trailing 2-byte length value. -/
theorem C9_counterexample :
    (NativeVarInfo.mk 0 65536 0 ⟨.VLT_REG, 1, 0, 0⟩).startOffset ≤
      (NativeVarInfo.mk 0 65536 0 ⟨.VLT_REG, 1, 0, 0⟩).endOffset ∧
    (mkAddrRange (NativeVarInfo.mk 0 65536 0 ⟨.VLT_REG, 1, 0, 0⟩)).Range ≠
      (NativeVarInfo.mk 0 65536 0 ⟨.VLT_REG, 1, 0, 0⟩).endOffset -
        (NativeVarInfo.mk 0 65536 0 ⟨.VLT_REG, 1, 0, 0⟩).startOffset ∧
    (emitVarRange "Foo"
        (NativeVarInfo.mk 0 65536 0 ⟨.VLT_REG, 1, 0, 0⟩)).getLast? =
      some (.intValue 0 2) := by
  refine ⟨by decide, by decide, rfl⟩

/-- C9 amended: for every register or register-relative location
range with start offset ≤ end offset whose difference fits the 16-bit
Range field (end − start < 65536), the emitted length equals
end − start exactly, both in the range record Range field and in the
trailing 2-byte length value (the last event emitted for the range);
differences of 65536 or more are truncated modulo 65536. -/
theorem C9_range_length (fnName : String) (r : NativeVarInfo)
    (hkind : r.loc.vlType = .VLT_REG ∨ r.loc.vlType = .VLT_REG_FP ∨
      r.loc.vlType = .VLT_STK)
    (hle : r.startOffset ≤ r.endOffset)
    (hlt : r.endOffset - r.startOffset < 65536) :
    (mkAddrRange r).Range = r.endOffset - r.startOffset ∧
    (emitVarRange fnName r).getLast? =
      some (.intValue ((r.endOffset : Int) - (r.startOffset : Int)) 2) := by
  have h1 : (mkAddrRange r).Range = r.endOffset - r.startOffset := by
    simp only [mkAddrRange, rangeLenVal]
    omega
  have h2 : Int.ofNat (mkAddrRange r).Range =
      (r.endOffset : Int) - (r.startOffset : Int) := by
    rw [Int.ofNat_eq_natCast, h1]
    omega
  refine ⟨h1, ?_⟩
  rcases hkind with hk | hk | hk <;>
    simp only [emitVarRange, rangeRecordPart, emitRangeTail, hk] <;>
    rw [h2] <;> rfl

/-- C9 witness for the amended theorem: a stack-location range from
offset 3 to offset 10 is emitted with length exactly 7. -/
theorem C9_range_length_witness :
    (mkAddrRange (NativeVarInfo.mk 3 10 7 ⟨.VLT_STK, 0, 2, -8⟩)).Range = 7 ∧
    (emitVarRange "Foo"
        (NativeVarInfo.mk 3 10 7 ⟨.VLT_STK, 0, 2, -8⟩)).getLast? =
      some (.intValue 7 2) := by
  have h := C9_range_length "Foo" (NativeVarInfo.mk 3 10 7 ⟨.VLT_STK, 0, 2, -8⟩)
    (by simp) (by decide) (by decide)
  simpa using h

end ObjWriterModel
